import Mathlib

/-!
# Verification of the 326 dev-environment course repository

Shallow embedding of the CRUD handlers, authentication helpers and
autograder scoring logic of the course repository, together with proofs
of the API-contract properties stated in its specification.

Conventions used throughout:
* a database table is a `List` of row structures; primary-key lookup
  (`session.get(Model, id)`) is `List.find?` on the `id` field;
* a handler returns `Except Nat α × State`: `Except.error c` is an HTTP
  error response with status `c`, and the second component is the
  database state after the request (an aborted transaction leaves the
  state unchanged);
* integer primary keys are `Nat`; the `nextAuthorId`/`nextBookId`
  counters model the database sequences that assign ids to rows
  inserted without an explicit id;
* integrity constraints declared on the models (`primary_key`,
  `unique`, `foreign_key`) are enforced at commit time, as the backing
  SQL database does; a violated constraint aborts the transaction and
  surfaces as an HTTP 500 response (the handlers have no handler for
  `IntegrityError`).
-/

/-- Responses are compared concretely in the witnesses below, so the
response type needs decidable equality. -/
instance exceptDecEq {ε α : Type} [DecidableEq ε] [DecidableEq α] :
    DecidableEq (Except ε α) := fun x y =>
  match x, y with
  | .error a, .error b =>
    if h : a = b then .isTrue (by rw [h]) else .isFalse (by simp [h])
  | .error _, .ok _ => .isFalse (by simp)
  | .ok _, .error _ => .isFalse (by simp)
  | .ok a, .ok b =>
    if h : a = b then .isTrue (by rw [h]) else .isFalse (by simp [h])

namespace HW2

/-- Row of the `author` table (`models.py`): integer primary key,
`name`, and `email` declared `unique`. -/
structure Author where
  id : Nat
  name : String
  email : String
deriving DecidableEq, Repr

/-- Row of the `book` table (`models.py`): integer primary key, `title`,
`year`, and `author_id` declared `foreign_key="author.id"`. -/
structure Book where
  id : Nat
  title : String
  year : Nat
  author_id : Nat
deriving DecidableEq, Repr

/-- Request body for `POST /authors/` (the `Author` SQLModel used as the
body schema: `id` is optional and assigned by the database when absent). -/
structure AuthorBody where
  id : Option Nat
  name : String
  email : String
deriving DecidableEq, Repr

/-- Request body for `POST /books/` (the `Book` SQLModel used as the
body schema). The `year` bounds (`ge=1000, le=2100`) are checked by the
validation layer before the handler runs and play no role here. -/
structure BookBody where
  id : Option Nat
  title : String
  year : Nat
  author_id : Nat
deriving DecidableEq, Repr

/-- State of the hw2 database: the two tables plus the id sequences. -/
structure DB where
  authors : List Author
  books : List Book
  nextAuthorId : Nat
  nextBookId : Nat
deriving DecidableEq, Repr

/-- A database state is well formed when every stored primary key is
below its sequence counter — true of every state reachable through the
API, where ids are assigned by the sequences. -/
def DB.WF (db : DB) : Prop :=
  (∀ a ∈ db.authors, a.id < db.nextAuthorId) ∧
    (∀ b ∈ db.books, b.id < db.nextBookId)

/-- Commit of an `INSERT` into `author`: assigns the id (from the body
or the sequence), enforces the primary-key and the `unique` email
constraints, and appends the row. -/
def insertAuthorRow (db : DB) (a : AuthorBody) : Except Nat (Author × DB) :=
  let newId := a.id.getD db.nextAuthorId
  if db.authors.any (fun r => r.id == newId) then .error 500
  else if db.authors.any (fun r => r.email == a.email) then .error 500
  else
    let row : Author := ⟨newId, a.name, a.email⟩
    .ok (row, { db with
      authors := db.authors ++ [row],
      nextAuthorId := if a.id.isNone then db.nextAuthorId + 1 else db.nextAuthorId })

/-- Commit of an `INSERT` into `book`: assigns the id and enforces the
primary-key constraint (no other unique constraint exists on `book`). -/
def insertBookRow (db : DB) (b : BookBody) : Except Nat (Book × DB) :=
  let newId := b.id.getD db.nextBookId
  if db.books.any (fun r => r.id == newId) then .error 500
  else
    let row : Book := ⟨newId, b.title, b.year, b.author_id⟩
    .ok (row, { db with
      books := db.books ++ [row],
      nextBookId := if b.id.isNone then db.nextBookId + 1 else db.nextBookId })

/-- `POST /authors/` (`main.py` `create_author`): add the author,
commit, refresh, return it. -/
def create_author (db : DB) (a : AuthorBody) : Except Nat Author × DB :=
  match insertAuthorRow db a with
  | .error c => (.error c, db)
  | .ok (row, db2) => (.ok row, db2)

/-- `GET /authors/{author_id}` (`main.py` `get_author`):
`session.get(Author, author_id)`, 404 when absent. -/
def get_author (db : DB) (author_id : Nat) : Except Nat Author :=
  match db.authors.find? (fun a => a.id == author_id) with
  | none => .error 404
  | some a => .ok a

/-- `DELETE /authors/{author_id}` (`main.py` `delete_author`): look the
author up, 404 when absent, otherwise `session.delete` and commit.  The
commit issues `DELETE FROM author WHERE id = author_id`; when rows of
`book` still reference the author, the `foreign_key="author.id"`
constraint of `models.py` rejects the deletion (cf. the comment in
`reset_database`: children must be deleted first to satisfy the FK
constraints), the `IntegrityError` escapes the handler as HTTP 500 and
the transaction is rolled back. -/
def delete_author (db : DB) (author_id : Nat) : Except Nat String × DB :=
  match db.authors.find? (fun a => a.id == author_id) with
  | none => (.error 404, db)
  | some _ =>
    if db.books.any (fun b => b.author_id == author_id) then (.error 500, db)
    else (.ok "Author deleted successfully",
      { db with authors := db.authors.filter (fun a => !(a.id == author_id)) })

/-- `POST /books/` (`main.py` `create_book`): first
`session.get(Author, book.author_id)` and 404 when the author is
absent; otherwise add the book, commit, refresh and return it. -/
def create_book (db : DB) (b : BookBody) : Except Nat Book × DB :=
  match db.authors.find? (fun a => a.id == b.author_id) with
  | none => (.error 404, db)
  | some _ =>
    match insertBookRow db b with
    | .error c => (.error c, db)
    | .ok (row, db2) => (.ok row, db2)

/-- Bulk `DELETE` of every row of one table, as issued by
`session.exec(delete(Model))`: the result's `rowcount` is the number of
rows removed. -/
def sqlDeleteAll {α : Type} (table : List α) : Nat × List α :=
  (table.length, [])

/-- `DELETE /reset/` (`main.py` `reset_database`): delete all books,
then all authors (children first, for the FK constraint), commit, and
report the two rowcounts and their total. -/
def reset_database (db : DB) : (Nat × Nat × Nat) × DB :=
  let books_result := sqlDeleteAll db.books
  let authors_result := sqlDeleteAll db.authors
  let books_deleted := books_result.1
  let authors_deleted := authors_result.1
  ((books_deleted, authors_deleted, books_deleted + authors_deleted),
    { db with books := books_result.2, authors := authors_result.2 })

end HW2

namespace HW3

/-- Row of the hw3 `user` table (`models.py`): integer primary key,
`name`, unique `email`, and the stored password hash. -/
structure User where
  id : Nat
  name : String
  email : String
  password : String
deriving DecidableEq, Repr

/-- Row of the hw3 `book` table (`models.py`): integer primary key,
`title`, `author`, and `user_id` declared `foreign_key="user.id"`. -/
structure Book where
  id : Nat
  title : String
  author : String
  user_id : Nat
deriving DecidableEq, Repr

/-- State of the hw3 database relevant to the book endpoints. -/
structure DB where
  users : List User
  books : List Book
deriving DecidableEq, Repr

/-- `DELETE /books/{book_id}` (`main.py` `delete_book`), run on behalf
of the authenticated user `u` (the surrounding `get_current_user` call
has already succeeded): `session.get(Book, book_id)`; 404 when the book
is absent or its `user_id` differs from `u.id`; otherwise delete the
row by primary key and commit (no `book` row is referenced by any
foreign key, so the deletion always commits). -/
def delete_book (db : DB) (u : User) (book_id : Nat) : Except Nat String × DB :=
  match db.books.find? (fun b => b.id == book_id) with
  | none => (.error 404, db)
  | some book =>
    if book.user_id != u.id then (.error 404, db)
    else (.ok "",
      { db with books := db.books.filter (fun b => !(b.id == book_id)) })

end HW3

namespace Artifact

/-- Roles of the artifact API (`schema.py`). -/
inductive Role where
  | admin
  | creator
  | viewer
deriving DecidableEq, Repr

/-- Row of the `user` table (`models.py` of lecture 15): unique
`username` and `email`, a role, and the stored password hash. -/
structure User where
  id : Nat
  username : String
  email : String
  role : Role
  password_hash : String
deriving DecidableEq, Repr

/-- Row of the `artifact` table (`models.py` of lecture 15).  The
`lat`/`lon`/`alt` floats are modelled as rationals; no arithmetic is
ever performed on them.  `parent_id` is an optional self-referential
foreign key. -/
structure ArtifactRow where
  id : Nat
  name : String
  description : Option String
  lat : Rat
  lon : Rat
  alt : Option Rat
  owner_id : Nat
  parent_id : Option Nat
deriving DecidableEq, Repr

/-- Login/registration body (`schema.py` `UserIn`). -/
structure UserIn where
  username : String
  password : String
deriving DecidableEq, Repr

/-- Public user payload (`schema.py` `UserOut`). -/
structure UserOut where
  id : Nat
  username : String
  email : String
  role : Role
deriving DecidableEq, Repr

/-- Artifact response payload (`schema.py` `ArtifactOut`), including
the ids of the artifact's children. -/
structure ArtifactOut where
  id : Nat
  name : String
  description : Option String
  owner_id : Nat
  parent_id : Option Nat
  children : List Nat
deriving DecidableEq, Repr

/-- State of the artifact database. -/
structure DB where
  users : List User
  artifacts : List ArtifactRow
deriving DecidableEq, Repr

/-- A Python exception as raised inside a handler's `try` block:
either a `fastapi.HTTPException` carrying a status code, or a
`DatabaseError` carrying a message.  Both derive from `Exception`, so
both are caught by a bare `except Exception`. -/
inductive PyExc where
  | httpExc (status : Nat) (detail : String)
  | dbError (msg : String)
deriving DecidableEq, Repr

namespace Db

/-- `DatabaseService.find_user` (`db.py`): select the first user whose
`username` and `password_hash` both match the request body; `None` when
there is no such user. -/
def find_user (db : DB) (u : UserIn) : Option UserOut :=
  (db.users.find? (fun r => r.username == u.username && r.password_hash == u.password)).map
    (fun r => ⟨r.id, r.username, r.email, r.role⟩)

/-- `DatabaseService.get_artifact_children` (`db.py`): select the `id`
of every artifact whose `parent_id` equals `artifact_id` (a SQL `=`
comparison, which a NULL `parent_id` never satisfies), with no
existence check on `artifact_id` itself.  The comprehension's
`if i is not None` filter is vacuous: stored rows always have an id. -/
def get_artifact_children (db : DB) (artifact_id : Nat) : List Nat :=
  (db.artifacts.filter (fun a => a.parent_id == some artifact_id)).map (fun a => a.id)

/-- `DatabaseService.get_artifact_by_id` (`db.py`):
`session.get(ArtifactModel, artifact_id)`; when the row is absent the
inner `raise DatabaseError(f"Artifact ... not found")` is caught by the
method's own `except Exception` and re-raised as a `DatabaseError`
with a "Could not find Artifact" message — either way a `DatabaseError`
reaches the caller.  On success the row is converted to an
`ArtifactOut` together with its children's ids. -/
def get_artifact_by_id (db : DB) (artifact_id : Nat) : Except PyExc ArtifactOut :=
  match db.artifacts.find? (fun r => r.id == artifact_id) with
  | none => .error (.dbError "Could not find Artifact with ID")
  | some row =>
    .ok ⟨row.id, row.name, row.description, row.owner_id, row.parent_id,
      get_artifact_children db row.id⟩

end Db

namespace Api

/-- Body of the `POST /api/user/login` handler's `try` block
(`main.py` `login_user`): `db.find_user`, then
`raise HTTPException(404, "Unknown username or password")` when no user
matches; otherwise record the login and return the user. -/
def login_user_body (db : DB) (u : UserIn) : Except PyExc UserOut :=
  match Db.find_user db u with
  | none => .error (.httpExc 404 "Unknown username or password")
  | some reg_user => .ok reg_user

/-- `POST /api/user/login` (`main.py` `login_user`).  The whole body —
including its own `raise HTTPException(404, ...)` — sits inside
`try: ... except Exception as e: raise HTTPException(500, str(e))`,
and `HTTPException` derives from `Exception`, so every exception the
body raises leaves the handler as HTTP 500. -/
def login_user (db : DB) (u : UserIn) : Except Nat UserOut :=
  match login_user_body db u with
  | .ok r => .ok r
  | .error _ => .error 500

/-- `GET /api/artifact/{artifact_id}` (`main.py` `get_artifact_by_id`):
calls `db.get_artifact_by_id` inside
`try: ... except Exception as e: raise HTTPException(500, str(e))`, so
the `DatabaseError` raised for a missing artifact leaves the handler
as HTTP 500. -/
def get_artifact_by_id (db : DB) (artifact_id : Nat) : Except Nat ArtifactOut :=
  match Db.get_artifact_by_id db artifact_id with
  | .ok r => .ok r
  | .error _ => .error 500

/-- `GET /api/artifact/{artifact_id}/children` (`main.py`
`get_artifact_children`): `db.get_artifact_children` never raises in
the data model (its `except` clause guards only database-connection
failures), so the handler always returns the list with HTTP 200. -/
def get_artifact_children (db : DB) (artifact_id : Nat) : Except Nat (List Nat) :=
  .ok (Db.get_artifact_children db artifact_id)

end Api

/-- A concrete artifact row with given id, parent and owner (the other
columns fixed), used to instantiate the theorems below. -/
def sampleRow (id : Nat) (parent : Option Nat) (owner : Nat) : ArtifactRow :=
  ⟨id, "box", none, 42, -72, none, owner, parent⟩

/-- Concrete database: user 1 owns artifact 1, whose children are
artifacts 2 and 3. -/
def exampleArtifactDB : DB :=
  ⟨[⟨1, "ada", "ada@example.org", .creator, "pw"⟩],
    [sampleRow 1 none 1, sampleRow 2 (some 1) 1, sampleRow 3 (some 1) 1]⟩

/-- The empty artifact database. -/
def emptyArtifactDB : DB := ⟨[], []⟩

end Artifact

namespace Auth

/-- A JWT claim value as used by lecture 09's tokens
(`data: dict[str, str | datetime]`): either a string (e.g. the `sub`
claim) or a point in time.  Times are integers (seconds since the
epoch), which is how `exp` is serialised into the token anyway. -/
inductive ClaimValue where
  | str (s : String)
  | time (t : Int)
deriving DecidableEq, Repr

/-- A JWT payload: a Python `dict` from claim names to claim values,
modelled as an association list with distinct keys and key-preserving
update. -/
abbrev Payload := List (String × ClaimValue)

/-- `dict.get`: value of the first (in a `dict`: only) entry with the
given key. -/
def Payload.get : Payload → String → Option ClaimValue
  | [], _ => none
  | kv :: rest, k => if kv.1 == k then some kv.2 else Payload.get rest k

/-- `dict.update {k: v}`: replace the entry with key `k`, or add one
when the key is absent. -/
def Payload.set : Payload → String → ClaimValue → Payload
  | [], k, v => [(k, v)]
  | kv :: rest, k, v =>
    if kv.1 == k then (k, v) :: rest else kv :: Payload.set rest k v

/-- Python truthiness of an `Optional[timedelta]` (seconds):
`None` and `timedelta(0)` are falsy, every other value is truthy. -/
def timedelta_truthy : Option Int → Bool
  | none => false
  | some d => d != 0

/-- `create_access_token` (`app/core/auth.py`), with the current time
`now` passed explicitly.  `to_encode = data.copy()` is copied, so the
update below touches only the copy; the function returns the payload
signed into the token together with the caller-visible value of `data`
after the call.  Note the expiry branch is `if expires_delta:` —
Python truthiness, not an `is not None` test. -/
def create_access_token (now : Int) (data : Payload) (expires_delta : Option Int) :
    Payload × Payload :=
  let to_encode := data
  let expire : Int :=
    if timedelta_truthy expires_delta then now + expires_delta.getD 0
    else now + 15 * 60
  (Payload.set to_encode "exp" (.time expire), data)

/-- Outcome of `jose.jwt.decode(token, SECRET_KEY, algorithms=[...])`:
the validated payload, or `ExpiredSignatureError`, or any other
`JWTError` (bad signature, malformed token, invalid claims). The codec
itself is cryptographic and is kept abstract: the definitions below
are parametrised over it. -/
inductive JwtOutcome where
  | ok (payload : Payload)
  | expired
  | invalid
deriving DecidableEq, Repr

/-- `decode_access_token` (`app/core/auth.py`): return the payload,
`None` on `ExpiredSignatureError`, `None` on `JWTError`. -/
def decode_access_token (jwt_decode : String → JwtOutcome) (token : String) :
    Option Payload :=
  match jwt_decode token with
  | .ok payload => some payload
  | .expired => none
  | .invalid => none

/-- `payload.get("sub")` followed by the handler's use of it as a
string username.  `jose` rejects a non-string `sub` during decode
(`JWTClaimsError`), so a payload that reaches the handler has a string
`sub` whenever the claim is present; `none` here means the claim is
absent. -/
def payload_sub (p : Payload) : Option String :=
  match Payload.get p "sub" with
  | some (.str s) => some s
  | _ => none

/-- A stored user of lecture 09's fake database (`app/models/user.py`
`UserInDB`). -/
structure UserInDB where
  username : String
  email : String
  full_name : String
  hashed_password : String
  disabled : Bool
deriving DecidableEq, Repr

/-- `get_current_user` (`code/app/core/dependencies.py`), parametrised
over the token codec and the user lookup (`get_user`): decode the
token and raise the 401 `credentials_exception` when decoding fails;
extract `sub` and raise 401 when it is missing; look the user up and
raise 401 when absent; otherwise return the user.  (The handler's own
`except JWTError` is unreachable: `decode_access_token` already
catches every `JWTError`.) -/
def get_current_user (jwt_decode : String → JwtOutcome)
    (get_user : String → Option UserInDB) (token : String) :
    Except Nat UserInDB :=
  match decode_access_token jwt_decode token with
  | none => .error 401
  | some payload =>
    match payload_sub payload with
    | none => .error 401
    | some username =>
      match get_user username with
      | none => .error 401
      | some user => .ok user

end Auth

namespace Grader

/-- One entry of `results["tests"]` as appended by `add_test_result`
(`run_tests.py`).  Scores are Python floats fed only through
left-to-right `+=` accumulation; they are modelled as rationals. -/
structure TestEntry where
  name : String
  max_score : Rat
  score : Rat
  output : String
deriving DecidableEq, Repr

/-- The Gradescope `results` dictionary (`run_tests.py`): the log
output, the list of per-test entries, and the running totals. -/
structure Results where
  output : String
  tests : List TestEntry
  score : Rat
  max_score : Rat
deriving DecidableEq, Repr

/-- The initial `results` value of `run_tests.py`. -/
def initial_results : Results :=
  { output := "", tests := [], score := 0, max_score := 0 }

/-- `add_test_result(name, max_score, score, output)` (`run_tests.py`):
append the entry to `results["tests"]` and add its score and max score
to the running totals. -/
def add_test_result (r : Results) (name : String) (max_score score : Rat)
    (output : String) : Results :=
  { r with
    tests := r.tests ++ [⟨name, max_score, score, output⟩],
    score := r.score + score,
    max_score := r.max_score + max_score }

/-- Arguments of one `add_test_result` call. -/
structure Call where
  name : String
  max_score : Rat
  score : Rat
  output : String
deriving DecidableEq, Repr

/-- The `results` value after a sequence of `add_test_result` calls,
starting from the script's initial value. -/
def run_calls (calls : List Call) : Results :=
  calls.foldl (fun r c => add_test_result r c.name c.max_score c.score c.output)
    initial_results

/-- The scoring invariant: the running totals agree with the sums over
the recorded test entries. -/
def ScoreInv (r : Results) : Prop :=
  r.score = (r.tests.map TestEntry.score).sum ∧
    r.max_score = (r.tests.map TestEntry.max_score).sum

end Grader

/-- Concrete hw2 database used by the witnesses: author 1 exists and
book 1 references it; both id sequences stand at 2. -/
def exHW2db : HW2.DB :=
  ⟨[⟨1, "Ada", "ada@example.org"⟩], [⟨1, "Notes", 2000, 1⟩], 2, 2⟩

/-- Concrete hw2 database with author 1 and an empty book table. -/
def exNoBooksDb : HW2.DB :=
  ⟨[⟨1, "Ada", "ada@example.org"⟩], [], 2, 1⟩

/-- Concrete hw3 database used by the witnesses: users 1 and 2, each
owning one book. -/
def exHW3db : HW3.DB :=
  ⟨[⟨1, "Ada", "ada@example.org", "h1"⟩, ⟨2, "Alan", "alan@example.org", "h2"⟩],
    [⟨1, "Vol I", "X", 1⟩, ⟨2, "Vol II", "Y", 2⟩]⟩

/-! ## Theorems -/

/-- C4: for every database state, `DELETE /reset/` leaves both the
author and the book table empty, and reports `books_deleted`,
`authors_deleted` and `total_deleted` equal to the numbers of rows
removed from each table and their sum. -/
theorem reset_database_spec (db : HW2.DB) :
    (HW2.reset_database db).2.authors = [] ∧
    (HW2.reset_database db).2.books = [] ∧
    (HW2.reset_database db).1 =
      (db.books.length, db.authors.length,
        db.books.length + db.authors.length) := by
  refine ⟨rfl, rfl, rfl⟩

/-- C2: whenever `POST /authors/` succeeds with a created row, fetching
that row's id through `GET /authors/{id}` returns the very same row,
whose name and email are those of the request body. -/
theorem create_then_get_author (db db2 : HW2.DB) (a : HW2.AuthorBody)
    (row : HW2.Author) (h : HW2.create_author db a = (.ok row, db2)) :
    HW2.get_author db2 row.id = .ok row ∧
      row.name = a.name ∧ row.email = a.email := by
  unfold HW2.create_author at h
  cases hins : HW2.insertAuthorRow db a with
  | error c => rw [hins] at h; simp at h
  | ok rd =>
    obtain ⟨r, d⟩ := rd
    rw [hins] at h
    simp only [Prod.mk.injEq, Except.ok.injEq] at h
    obtain ⟨hr, hd⟩ := h
    subst hr hd
    unfold HW2.insertAuthorRow at hins
    by_cases h1 : db.authors.any
        (fun x => x.id == a.id.getD db.nextAuthorId) = true
    · simp [h1] at hins
    · by_cases h2 : db.authors.any (fun x => x.email == a.email) = true
      · simp [h1, h2] at hins
      · simp only [h1, h2, if_false, Bool.false_eq_true, if_neg,
          Except.ok.injEq, Prod.mk.injEq, not_false_eq_true] at hins
        obtain ⟨hrow, hdb⟩ := hins
        subst hrow
        unfold HW2.get_author
        have hpre : db.authors.find?
            (fun x => x.id == a.id.getD db.nextAuthorId) = none := by
          rw [List.find?_eq_none]
          intro x hx
          intro hbeq
          exact h1 (List.any_eq_true.mpr ⟨x, hx, hbeq⟩)
        rw [← hdb]
        simp [List.find?_append, hpre]

/-- C1 (amended): `POST /books/` rejects with 404 — adding no book
row — every body whose `author_id` matches no stored author; when the
`author_id` does match a stored author, then provided the id the
insert uses (the body's explicit id, or else the next sequence value)
collides with no stored book id, the book is committed (appended to
the book table) and returned; when that id does collide with a stored
book id, the commit aborts with the primary-key `IntegrityError` as
HTTP 500 and no book is added. -/
theorem create_book_author_fk_spec (db : HW2.DB) (b : HW2.BookBody) :
    ((∀ a ∈ db.authors, a.id ≠ b.author_id) →
      (HW2.create_book db b).1 = .error 404 ∧
        (HW2.create_book db b).2 = db)
    ∧ ((∃ a ∈ db.authors, a.id = b.author_id) →
      (∀ r ∈ db.books, r.id ≠ b.id.getD db.nextBookId) →
      ∃ row, (HW2.create_book db b).1 = .ok row ∧
        (HW2.create_book db b).2.books = db.books ++ [row] ∧
        row.id = b.id.getD db.nextBookId ∧ row.title = b.title ∧
        row.year = b.year ∧ row.author_id = b.author_id)
    ∧ ((∃ a ∈ db.authors, a.id = b.author_id) →
      (∃ r ∈ db.books, r.id = b.id.getD db.nextBookId) →
      (HW2.create_book db b).1 = .error 500 ∧
        (HW2.create_book db b).2 = db) := by
  refine ⟨?_, ?_, ?_⟩
  · intro hno
    have hfind : db.authors.find? (fun a => a.id == b.author_id) = none := by
      rw [List.find?_eq_none]
      intro x hx hbeq
      exact hno x hx (by simpa using hbeq)
    simp [HW2.create_book, hfind]
  · intro hex hfree
    obtain ⟨a0, ha0mem, ha0id⟩ := hex
    have hsome : (db.authors.find? (fun a => a.id == b.author_id)).isSome := by
      rw [List.find?_isSome]
      exact ⟨a0, ha0mem, by simpa using ha0id⟩
    obtain ⟨afound, hfind⟩ := Option.isSome_iff_exists.mp hsome
    have hnew : ¬ ∃ x ∈ db.books, x.id = b.id.getD db.nextBookId := by
      rintro ⟨x, hx, hxe⟩
      exact hfree x hx hxe
    refine ⟨⟨b.id.getD db.nextBookId, b.title, b.year, b.author_id⟩, ?_⟩
    simp [HW2.create_book, hfind, HW2.insertBookRow, hnew]
  · intro hex hcol
    obtain ⟨a0, ha0mem, ha0id⟩ := hex
    have hsome : (db.authors.find? (fun a => a.id == b.author_id)).isSome := by
      rw [List.find?_isSome]
      exact ⟨a0, ha0mem, by simpa using ha0id⟩
    obtain ⟨afound, hfind⟩ := Option.isSome_iff_exists.mp hsome
    simp [HW2.create_book, hfind, HW2.insertBookRow, hcol]

/-- Witness for C2 at a concrete input: creating Grace in the example
database and fetching the returned id 2 gives back the same row. -/
theorem create_then_get_author_witness :
    HW2.get_author
        (HW2.create_author exHW2db ⟨none, "Grace", "grace@example.org"⟩).2 2 =
      .ok ⟨2, "Grace", "grace@example.org"⟩ :=
  (create_then_get_author exHW2db
    (HW2.create_author exHW2db ⟨none, "Grace", "grace@example.org"⟩).2
    ⟨none, "Grace", "grace@example.org"⟩
    ⟨2, "Grace", "grace@example.org"⟩ (by decide)).1

/-- Counterexample for C1 as stated: the body `⟨some 1, "Dup", 2001, 1⟩`
names the existing author 1, yet the book is not committed and
returned — its explicit id 1 collides with the stored book 1, the
commit aborts with the primary-key `IntegrityError` as HTTP 500, and
the book table is unchanged. -/
theorem create_book_duplicate_id_counterexample :
    (∃ a ∈ exHW2db.authors, a.id = 1) ∧
    (HW2.create_book exHW2db ⟨some 1, "Dup", 2001, 1⟩).1 = .error 500 ∧
    (HW2.create_book exHW2db ⟨some 1, "Dup", 2001, 1⟩).2 = exHW2db := by
  decide

/-- Witness for the amended C1 at concrete inputs: a body naming the
absent author 7 is rejected with 404 leaving the state unchanged; a
body naming the existing author 1 with no explicit id is committed
with the sequence id 2 and returned; and a body naming author 1 with
the colliding explicit id 1 aborts with 500 leaving the state
unchanged. -/
theorem create_book_author_fk_spec_witness :
    ((HW2.create_book exHW2db ⟨none, "Ghost", 2001, 7⟩).1 = .error 404 ∧
      (HW2.create_book exHW2db ⟨none, "Ghost", 2001, 7⟩).2 = exHW2db) ∧
    (∃ row, (HW2.create_book exHW2db ⟨none, "More", 2001, 1⟩).1 = .ok row ∧
      (HW2.create_book exHW2db ⟨none, "More", 2001, 1⟩).2.books =
        exHW2db.books ++ [row] ∧
      row.id = 2 ∧ row.title = "More" ∧ row.year = 2001 ∧
      row.author_id = 1) ∧
    ((HW2.create_book exHW2db ⟨some 1, "Dup2", 2001, 1⟩).1 = .error 500 ∧
      (HW2.create_book exHW2db ⟨some 1, "Dup2", 2001, 1⟩).2 = exHW2db) :=
  ⟨(create_book_author_fk_spec exHW2db ⟨none, "Ghost", 2001, 7⟩).1 (by decide),
    (create_book_author_fk_spec exHW2db ⟨none, "More", 2001, 1⟩).2.1
      (by decide) (by decide),
    (create_book_author_fk_spec exHW2db ⟨some 1, "Dup2", 2001, 1⟩).2.2
      (by decide) (by decide)⟩

/-- Counterexample for C3 as stated: in the example database author 1
exists and book 1 references it; `DELETE /authors/1` fails with 500
(foreign-key violation) and a subsequent `GET /authors/1` does not
return 404 — the author was not removed. -/
theorem delete_author_with_books_counterexample :
    (exHW2db.authors.find? (fun a => a.id == 1)).isSome = true ∧
    (HW2.delete_author exHW2db 1).1 = .error 500 ∧
    HW2.get_author (HW2.delete_author exHW2db 1).2 1 ≠ .error 404 := by
  decide

/-- C3 (amended): for every existing author id, when no book references
the author, `DELETE /authors/{id}` removes it and a subsequent GET
returns 404; when some book still references the author, the deletion
fails with 500 and the database is unchanged. -/
theorem delete_author_spec (db : HW2.DB) (author_id : Nat) :
    (db.authors.find? (fun a => a.id == author_id)).isSome →
      ((∀ bk ∈ db.books, bk.author_id ≠ author_id) →
        (HW2.delete_author db author_id).1 =
          .ok "Author deleted successfully" ∧
        HW2.get_author (HW2.delete_author db author_id).2 author_id =
          .error 404)
      ∧ ((∃ bk ∈ db.books, bk.author_id = author_id) →
        (HW2.delete_author db author_id).1 = .error 500 ∧
        (HW2.delete_author db author_id).2 = db) := by
  intro hsome
  obtain ⟨a0, hfind⟩ := Option.isSome_iff_exists.mp hsome
  constructor
  · intro hnb
    have hany : ¬ db.books.any (fun b => b.author_id == author_id) = true := by
      intro h
      obtain ⟨bk, hbk, hbeq⟩ := List.any_eq_true.mp h
      exact hnb bk hbk (by simpa using hbeq)
    have hafter : (HW2.delete_author db author_id).2.authors =
        db.authors.filter (fun a => !(a.id == author_id)) := by
      simp [HW2.delete_author, hfind, hany]
    refine ⟨by simp [HW2.delete_author, hfind, hany], ?_⟩
    have hnone : ((HW2.delete_author db author_id).2.authors).find?
        (fun a => a.id == author_id) = none := by
      rw [hafter, List.find?_eq_none]
      intro x hx
      have := (List.mem_filter.mp hx).2
      simpa using this
    simp [HW2.get_author, hnone]
  · intro hex
    obtain ⟨bk, hbk, hbeq⟩ := hex
    have hany : db.books.any (fun b => b.author_id == author_id) = true :=
      List.any_eq_true.mpr ⟨bk, hbk, by simpa using hbeq⟩
    constructor <;> simp [HW2.delete_author, hfind, hany]

/-- Witness for the amended C3 at concrete inputs: deleting author 1
fails with 500 while book 1 references it, and succeeds — with the
subsequent GET returning 404 — in the database without books. -/
theorem delete_author_spec_witness :
    ((HW2.delete_author exHW2db 1).1 = .error 500 ∧
      (HW2.delete_author exHW2db 1).2 = exHW2db) ∧
    ((HW2.delete_author exNoBooksDb 1).1 =
        .ok "Author deleted successfully" ∧
      HW2.get_author (HW2.delete_author exNoBooksDb 1).2 1 = .error 404) :=
  ⟨(delete_author_spec exHW2db 1 (by decide)).2 (by decide),
    (delete_author_spec exNoBooksDb 1 (by decide)).1 (by decide)⟩

/-- C9: under the primary-key constraint on book ids, the
authenticated-user book deletion removes a book only when it exists
and belongs to that user; otherwise it answers 404 and leaves the book
table unchanged; and every book of another user survives the request,
whatever the target id. -/
theorem delete_book_ownership_spec (db : HW3.DB) (u : HW3.User)
    (book_id : Nat) (hids : (db.books.map HW3.Book.id).Nodup) :
    ((∀ bk ∈ db.books, bk.id = book_id → bk.user_id ≠ u.id) →
      (HW3.delete_book db u book_id).1 = .error 404 ∧
      (HW3.delete_book db u book_id).2 = db)
    ∧ (∀ bk ∈ db.books, bk.id = book_id → bk.user_id = u.id →
      (HW3.delete_book db u book_id).1 = .ok "" ∧
      (HW3.delete_book db u book_id).2.books =
        db.books.filter (fun x => !(x.id == book_id)))
    ∧ (∀ bk ∈ db.books, bk.user_id ≠ u.id →
      bk ∈ (HW3.delete_book db u book_id).2.books) := by
  cases hf : db.books.find? (fun b => b.id == book_id) with
  | none =>
    have hno : ∀ bk ∈ db.books, bk.id ≠ book_id := by
      intro bk hbk
      have := List.find?_eq_none.mp hf bk hbk
      simpa using this
    refine ⟨fun _ => by simp [HW3.delete_book, hf], ?_, ?_⟩
    · intro bk hbk hid _
      exact absurd hid (hno bk hbk)
    · intro bk hbk _
      simpa [HW3.delete_book, hf] using hbk
  | some book =>
    have hbid : book.id = book_id := by
      have := List.find?_some hf
      simpa using this
    have hbmem : book ∈ db.books := List.mem_of_find?_eq_some hf
    by_cases hown : book.user_id = u.id
    · have hres : HW3.delete_book db u book_id =
          (.ok "", { db with
            books := db.books.filter (fun x => !(x.id == book_id)) }) := by
        simp [HW3.delete_book, hf, hown]
      refine ⟨?_, ?_, ?_⟩
      · intro hall
        exact absurd hown (hall book hbmem hbid)
      · intro bk _ _ _
        rw [hres]
        exact ⟨rfl, rfl⟩
      · intro bk hbk hbku
        rw [hres]
        refine List.mem_filter.mpr ⟨hbk, ?_⟩
        have hne : bk.id ≠ book_id := by
          intro he
          have : bk = book :=
            List.inj_on_of_nodup_map hids hbk hbmem (by rw [he, hbid])
          exact hbku (this ▸ hown)
        simpa using hne
    · have hres : HW3.delete_book db u book_id = (.error 404, db) := by
        simp [HW3.delete_book, hf, hown]
      refine ⟨fun _ => by rw [hres]; exact ⟨rfl, rfl⟩, ?_, ?_⟩
      · intro bk hbk hid hu
        have : bk = book :=
          List.inj_on_of_nodup_map hids hbk hbmem (by rw [hid, hbid])
        exact absurd (this ▸ hu) hown
      · intro bk hbk _
        rw [hres]
        exact hbk

/-- Witness for C9 at concrete inputs: user 2 cannot delete user 1's
book 1 (404, state unchanged), user 1 can (book 1 removed), and user
1's request for the absent id 9 answers 404; user 2's book survives
both of user 1's requests. -/
theorem delete_book_ownership_spec_witness :
    ((HW3.delete_book exHW3db ⟨2, "Alan", "alan@example.org", "h2"⟩ 1).1 =
        .error 404 ∧
      (HW3.delete_book exHW3db ⟨2, "Alan", "alan@example.org", "h2"⟩ 1).2 =
        exHW3db) ∧
    ((HW3.delete_book exHW3db ⟨1, "Ada", "ada@example.org", "h1"⟩ 1).1 =
        .ok "" ∧
      (HW3.delete_book exHW3db ⟨1, "Ada", "ada@example.org", "h1"⟩ 1).2.books =
        exHW3db.books.filter (fun x => !(x.id == 1))) ∧
    (⟨2, "Vol II", "Y", 2⟩ ∈
      (HW3.delete_book exHW3db ⟨1, "Ada", "ada@example.org", "h1"⟩ 1).2.books) :=
  ⟨(delete_book_ownership_spec exHW3db ⟨2, "Alan", "alan@example.org", "h2"⟩ 1
      (by decide)).1 (by decide),
    (delete_book_ownership_spec exHW3db ⟨1, "Ada", "ada@example.org", "h1"⟩ 1
      (by decide)).2.1 ⟨1, "Vol I", "X", 1⟩ (by decide) rfl rfl,
    (delete_book_ownership_spec exHW3db ⟨1, "Ada", "ada@example.org", "h1"⟩ 1
      (by decide)).2.2 ⟨2, "Vol II", "Y", 2⟩ (by decide) (by decide)⟩

/-- C10: `get_artifact_children` returns exactly the ids of the
artifacts whose `parent_id` equals the requested id, with no existence
check; when no artifact has that parent — in particular for a
nonexistent or childless id — the route answers the empty list with
HTTP 200. -/
theorem get_artifact_children_spec (db : Artifact.DB) (artifact_id : Nat) :
    (∀ i, i ∈ Artifact.Db.get_artifact_children db artifact_id ↔
      ∃ a ∈ db.artifacts, a.id = i ∧ a.parent_id = some artifact_id)
    ∧ ((∀ a ∈ db.artifacts, a.parent_id ≠ some artifact_id) →
      Artifact.Api.get_artifact_children db artifact_id = .ok []) := by
  constructor
  · intro i
    simp only [Artifact.Db.get_artifact_children, List.mem_map,
      List.mem_filter, beq_iff_eq]
    constructor
    · rintro ⟨a, ⟨ha, hp⟩, hid⟩
      exact ⟨a, ha, hid, hp⟩
    · rintro ⟨a, ha, hid, hp⟩
      exact ⟨a, ⟨ha, hp⟩, hid⟩
  · intro hnone
    have hfil : db.artifacts.filter
        (fun a => a.parent_id == some artifact_id) = [] := by
      rw [List.filter_eq_nil_iff]
      intro a ha
      simpa using hnone a ha
    simp [Artifact.Api.get_artifact_children,
      Artifact.Db.get_artifact_children, hfil]

/-- Witness for C10 at concrete inputs: the children of artifact 1 are
exactly 2 and 3 in the example database, and the route answers `ok []`
for the nonexistent id 99. -/
theorem get_artifact_children_spec_witness :
    (2 ∈ Artifact.Db.get_artifact_children Artifact.exampleArtifactDB 1 ↔
      ∃ a ∈ Artifact.exampleArtifactDB.artifacts,
        a.id = 2 ∧ a.parent_id = some 1) ∧
    Artifact.Api.get_artifact_children Artifact.exampleArtifactDB 99 =
      .ok [] :=
  ⟨(get_artifact_children_spec Artifact.exampleArtifactDB 1).1 2,
    (get_artifact_children_spec Artifact.exampleArtifactDB 99).2 (by decide)⟩

/-- C5 (code behaviour at the failing inputs): logging in with unknown
credentials and fetching a nonexistent artifact both answer HTTP 500,
not 404 — the handlers' `except Exception` clauses catch the
`HTTPException(404)` and the `DatabaseError` raised inside the `try`
blocks and re-raise them as `HTTPException(500)`. -/
theorem artifact_missing_resource_returns_500 :
    Artifact.Api.login_user Artifact.emptyArtifactDB ⟨"nobody", "pw"⟩ =
      .error 500 ∧
    Artifact.Api.get_artifact_by_id Artifact.emptyArtifactDB 1 =
      .error 500 ∧
    Artifact.Api.login_user Artifact.exampleArtifactDB ⟨"ada", "wrong"⟩ =
      .error 500 ∧
    Artifact.Api.get_artifact_by_id Artifact.exampleArtifactDB 99 =
      .error 500 ∧
    Artifact.Api.login_user Artifact.exampleArtifactDB ⟨"ada", "pw"⟩ =
      .ok ⟨1, "ada", "ada@example.org", .creator⟩ := by
  decide

/-- C6: the protected-route dependency answers 401 exactly when the
token fails decoding (bad signature / malformed, or expired), when the
decoded payload lacks a `sub` claim, or when `sub` names no stored
user; otherwise it returns that user.  `decode_access_token` returns
`None` exactly on expired or otherwise invalid tokens. -/
theorem get_current_user_spec (jwt_decode : String → Auth.JwtOutcome)
    (get_user : String → Option Auth.UserInDB) (token : String) :
    (Auth.get_current_user jwt_decode get_user token = .error 401 ↔
      Auth.decode_access_token jwt_decode token = none
      ∨ (∃ p, Auth.decode_access_token jwt_decode token = some p ∧
          Auth.payload_sub p = none)
      ∨ (∃ p s, Auth.decode_access_token jwt_decode token = some p ∧
          Auth.payload_sub p = some s ∧ get_user s = none))
    ∧ (∀ u, Auth.get_current_user jwt_decode get_user token = .ok u ↔
      ∃ p s, Auth.decode_access_token jwt_decode token = some p ∧
        Auth.payload_sub p = some s ∧ get_user s = some u)
    ∧ (Auth.decode_access_token jwt_decode token = none ↔
      jwt_decode token = .expired ∨ jwt_decode token = .invalid) := by
  cases hj : jwt_decode token with
  | ok payload =>
    cases hs : Auth.payload_sub payload with
    | none =>
      simp [Auth.get_current_user, Auth.decode_access_token, hj, hs]
    | some username =>
      cases hu : get_user username with
      | none =>
        simp [Auth.get_current_user, Auth.decode_access_token, hj, hs, hu]
      | some user =>
        simp [Auth.get_current_user, Auth.decode_access_token, hj, hs, hu]
  | expired =>
    simp [Auth.get_current_user, Auth.decode_access_token, hj]
  | invalid =>
    simp [Auth.get_current_user, Auth.decode_access_token, hj]

/-- `dict.update {k: v}` followed by `dict.get(k)` yields `v`. -/
theorem payload_get_set_self (p : Auth.Payload) (k : String)
    (v : Auth.ClaimValue) :
    Auth.Payload.get (Auth.Payload.set p k v) k = some v := by
  induction p with
  | nil => simp [Auth.Payload.set, Auth.Payload.get]
  | cons kv rest ih =>
    by_cases hk : kv.1 == k
    · simp [Auth.Payload.set, Auth.Payload.get, hk]
    · simp [Auth.Payload.set, Auth.Payload.get, hk, ih]

/-- Counterexample for C7 as stated: with issuance time 0 and the
supplied `expires_delta = timedelta(0)`, the token's `exp` claim is
900 (the 15-minute default) rather than the promised `0 + 0`:
`if expires_delta:` tests Python truthiness, and a zero timedelta is
falsy. -/
theorem create_access_token_zero_delta_counterexample :
    Auth.Payload.get (Auth.create_access_token 0 [] (some 0)).1 "exp" =
      some (.time 900) ∧
    ¬ Auth.Payload.get (Auth.create_access_token 0 [] (some 0)).1 "exp" =
      some (.time 0) := by
  decide

/-- C7 (amended): every produced token carries an `exp` claim; it is
the issuance time plus `expires_delta` when a nonzero `expires_delta`
is supplied, and the issuance time plus 15 minutes when `expires_delta`
is omitted or zero; and the caller's `data` dict is unchanged by the
call. -/
theorem create_access_token_exp_spec (now : Int) (data : Auth.Payload)
    (expires_delta : Option Int) :
    (∀ d, expires_delta = some d → d ≠ 0 →
      Auth.Payload.get
          (Auth.create_access_token now data expires_delta).1 "exp" =
        some (.time (now + d)))
    ∧ ((expires_delta = none ∨ expires_delta = some 0) →
      Auth.Payload.get
          (Auth.create_access_token now data expires_delta).1 "exp" =
        some (.time (now + 15 * 60)))
    ∧ (Auth.create_access_token now data expires_delta).2 = data
    ∧ ∃ e, Auth.Payload.get
        (Auth.create_access_token now data expires_delta).1 "exp" =
      some (.time e) := by
  refine ⟨?_, ?_, rfl, ?_⟩
  · intro d hd hdne
    subst hd
    have ht : Auth.timedelta_truthy (some d) = true := by
      simpa [Auth.timedelta_truthy] using hdne
    simp [Auth.create_access_token, ht, payload_get_set_self]
  · rintro (h | h) <;> subst h <;>
      simp [Auth.create_access_token, Auth.timedelta_truthy,
        payload_get_set_self]
  · cases hT : Auth.timedelta_truthy expires_delta
    · exact ⟨now + 15 * 60,
        by simp [Auth.create_access_token, hT, payload_get_set_self]⟩
    · exact ⟨now + expires_delta.getD 0,
        by simp [Auth.create_access_token, hT, payload_get_set_self]⟩

/-- Witness for the amended C7 at concrete inputs: a supplied 600
second delta yields `exp = 600`, an omitted delta yields `exp = 900`,
and the input dict `[("sub", "ada")]` is returned unchanged. -/
theorem create_access_token_exp_spec_witness :
    Auth.Payload.get
        (Auth.create_access_token 0 [("sub", .str "ada")] (some 600)).1
        "exp" = some (.time 600) ∧
    Auth.Payload.get
        (Auth.create_access_token 0 [("sub", .str "ada")] none).1 "exp" =
      some (.time (0 + 15 * 60)) ∧
    (Auth.create_access_token 0 [("sub", .str "ada")] (some 600)).2 =
      [("sub", .str "ada")] :=
  ⟨by simpa using
      (create_access_token_exp_spec 0 [("sub", .str "ada")] (some 600)).1
        600 rfl (by decide),
    (create_access_token_exp_spec 0 [("sub", .str "ada")] none).2.1
      (Or.inl rfl),
    (create_access_token_exp_spec 0 [("sub", .str "ada")] (some 600)).2.2.1⟩

/-- `add_test_result` preserves the scoring invariant. -/
theorem scoreInv_add (r : Grader.Results) (name : String)
    (max_score score : Rat) (output : String) (h : Grader.ScoreInv r) :
    Grader.ScoreInv (Grader.add_test_result r name max_score score output) := by
  obtain ⟨h1, h2⟩ := h
  constructor <;>
    simp [Grader.add_test_result, h1, h2]

/-- The scoring invariant is preserved by any sequence of calls from
any state satisfying it. -/
theorem scoreInv_foldl (calls : List Grader.Call) (r : Grader.Results)
    (h : Grader.ScoreInv r) :
    Grader.ScoreInv (calls.foldl
      (fun r c => Grader.add_test_result r c.name c.max_score c.score c.output)
      r) := by
  induction calls generalizing r with
  | nil => exact h
  | cons c rest ih =>
    exact ih _ (scoreInv_add r c.name c.max_score c.score c.output h)

/-- C8: after every sequence of `add_test_result` calls — hence after
every single call of any run — `results["score"]` is the sum of the
`score` fields of `results["tests"]` and `results["max_score"]` the sum
of their `max_score` fields. -/
theorem autograder_score_invariant (calls : List Grader.Call) :
    (Grader.run_calls calls).score =
      ((Grader.run_calls calls).tests.map Grader.TestEntry.score).sum ∧
    (Grader.run_calls calls).max_score =
      ((Grader.run_calls calls).tests.map Grader.TestEntry.max_score).sum :=
  scoreInv_foldl calls Grader.initial_results (by constructor <;> rfl)
